import Mathlib

/-!
Verification of the wave-runup model library (py_wave_runup).

Shallow embedding of `py_wave_runup/models.py` and `py_wave_runup/ensembles.py`.
Machine floats are modelled by real numbers extended with a NaN element:
`F := Option ℝ`, where `Option.none` stands for IEEE NaN.  The numpy
elementwise operations propagate NaN, which is exactly the behaviour of
`Option.map` / `Option.map₂` lifting.  (`Real.sqrt` of a negative number is 0
while numpy returns NaN; no result proved here evaluates a square root at a
negative argument.)
-/

/-- A float value: `Option.none` models IEEE NaN. -/
abbrev F := Option ℝ

/-- A raw Python argument to `RunupModel.__init__`: `None`, a float scalar, or
a list of floats. -/
inductive Arg where
  | none
  | scalar (x : ℝ)
  | array (xs : List ℝ)

/-- `arg is None` in Python. -/
def Arg.isNone : Arg → Bool
  | .none => true
  | _ => false

/-- Python truthiness of a raw argument: `None` and `0.0` and `[]` are falsy
(`if not Lp:` in `RunupModel.__init__`). -/
noncomputable def Arg.falsy : Arg → Bool
  | .none => true
  | .scalar x => decide (x = 0)
  | .array xs => xs.isEmpty

/-- `np.atleast_1d(arg).astype(float)`: a scalar becomes a length-1 array, a
list keeps its length, and `None` becomes the single float NaN (numpy casts
`None` to `nan`; the `EnsembleRaw` doctest shows the resulting
`Power2018_R2 = NaN` column). -/
def lift1d : Arg → List F
  | .none => [Option.none]
  | .scalar x => [some x]
  | .array xs => xs.map some

/-- The `ValueError`/`TypeError` raise sites of the library, named after the
error kinds of the specification (the source raises plain `ValueError`s, plus
a `TypeError` from numpy when arithmetic hits a `None` period). -/
inductive PyErr where
  | missingWaveLength
  | inconsistentLength
  | typeErrorNone
  | invalidParameter
deriving DecidableEq

/-- Is an `Except` value a success? -/
def isOkE {ε α : Type} : Except ε α → Bool
  | .ok _ => true
  | .error _ => false

/-- The state stored on a `RunupModel` instance after `__init__` finishes:
the broadcast arrays `Hs`, `Tp`, `beta`, `Lp`, `r`, the raw depth `h`, and
the derived Iribarren numbers `zeta`. -/
structure WaveState where
  Hs : List F
  Tp : List F
  beta : List F
  Lp : List F
  h : Option ℝ
  r : List F
  zeta : List F

/-- NaN-propagating lift of a ternary real function (`Option.map₂` for three
arguments). -/
def omap3 (g : ℝ → ℝ → ℝ → ℝ) : F → F → F → F
  | some a, some b, some c => some (g a b c)
  | _, _, _ => Option.none

/-- NaN-propagating lift of a 4-ary real function. -/
def omap4 (g : ℝ → ℝ → ℝ → ℝ → ℝ) : F → F → F → F → F
  | some a, some b, some c, some d => some (g a b c d)
  | _, _, _, _ => Option.none

/-- Elementwise combination of three equal-length numpy arrays. -/
def zip3With {α β γ δ : Type} (g : α → β → γ → δ) : List α → List β → List γ → List δ
  | x :: xs, y :: ys, z :: zs => g x y z :: zip3With g xs ys zs
  | _, _, _ => []

/-- Elementwise combination of four equal-length numpy arrays. -/
def zip4With {α β γ δ ε : Type} (g : α → β → γ → δ → ε) :
    List α → List β → List γ → List δ → List ε
  | x :: xs, y :: ys, z :: zs, w :: ws => g x y z w :: zip4With g xs ys zs ws
  | _, _, _, _ => []

/-- Elementwise unary numpy operation on a float array. -/
def fl1 (g : ℝ → ℝ) (xs : List F) : List F := xs.map (Option.map g)

/-- Elementwise binary numpy operation on two float arrays of equal length. -/
def fl2 (g : ℝ → ℝ → ℝ) (xs ys : List F) : List F := List.zipWith (Option.map₂ g) xs ys

/-- Elementwise ternary numpy operation. -/
def fl3 (g : ℝ → ℝ → ℝ → ℝ) (xs ys zs : List F) : List F := zip3With (omap3 g) xs ys zs

/-- Elementwise 4-ary numpy operation. -/
def fl4 (g : ℝ → ℝ → ℝ → ℝ → ℝ) (xs ys zs ws : List F) : List F :=
  zip4With (omap4 g) xs ys zs ws

/-- Binary numpy operation with size-1 broadcasting (needed because `r` is not
length-checked against the other arrays).  Mismatched lengths that are both
at least 2 make numpy raise at evaluation time; no claim evaluates a formula
there, so that corner keeps plain `zipWith` truncation. -/
def bcast2 (g : ℝ → ℝ → ℝ) (xs ys : List F) : List F :=
  if xs.length = 1 then ys.map (fun y => Option.map₂ g (xs.headD Option.none) y)
  else if ys.length = 1 then xs.map (fun x => Option.map₂ g x (ys.headD Option.none))
  else List.zipWith (Option.map₂ g) xs ys

/-- Float comparison `a < b`, false when either side is NaN (numpy mask
semantics: `nan < 0.3` is `False`). -/
noncomputable def fLT (a b : F) : Bool :=
  match a, b with
  | some x, some y => decide (x < y)
  | _, _ => false

/-- Boolean-mask selection `xs[mask]` of numpy. -/
def maskCompress {α : Type} : List Bool → List α → List α
  | true :: ms, x :: xs => x :: maskCompress ms xs
  | false :: ms, _ :: xs => maskCompress ms xs
  | _, _ => []

/-- Boolean-mask assignment `xs[mask] = vals` of numpy: the entries of `vals`
replace, in order, the entries of `xs` at the `true` positions of `mask`. -/
def maskScatter {α : Type} : List Bool → List α → List α → List α
  | true :: ms, _ :: xs, v :: vs => v :: maskScatter ms xs vs
  | false :: ms, x :: xs, vs => x :: maskScatter ms xs vs
  | _, xs, _ => xs

/-- The Iribarren-number formula `beta / (Hs / Lp) ** 0.5` from the end of
`RunupModel.__init__`. -/
noncomputable def zf (b hs lp : ℝ) : ℝ := b / Real.sqrt (hs / lp)

/-- The common tail of `RunupModel.__init__`: the size check
`len(set(x.size for x in [Hs, Tp, beta, Lp])) != 1` (note `r` is absent from
the checked list), then the `zeta` computation. -/
noncomputable def mkChecked (HsL TpL betaL LpL : List F) (h : Option ℝ) (rL : List F) :
    Except PyErr WaveState :=
  if HsL.length = TpL.length ∧ TpL.length = betaL.length ∧ betaL.length = LpL.length then
    .ok ⟨HsL, TpL, betaL, LpL, h, rL, fl3 zf betaL HsL LpL⟩
  else .error .inconsistentLength

/-- One Newton step for the dispersion relation
`(2π/T)² = 9.81 k tanh(k h)` (`fk` / `f_prime_k` in `_newtRaph`). -/
noncomputable def nrStep (T h k : ℝ) : ℝ :=
  k - (((2 * Real.pi / T) ^ 2 - 9.81 * k * Real.tanh (k * h)) /
    ((-9.81) * Real.tanh (k * h) - 9.81 * k * (1 - Real.tanh (k * h) ^ 2)))

/-- The `while abs(k2 - k1) / k1 > 0.01` loop of `_newtRaph`, with state
`(k1, k2)`.  The source loop is unbounded; it is modelled with explicit fuel
and agrees with the source whenever the iteration converges within the
fuel. -/
noncomputable def nrLoop (T h : ℝ) : Nat → ℝ → ℝ → ℝ
  | 0, _, k2 => k2
  | n + 1, k1, k2 => if |k2 - k1| / k1 ≤ 0.01 then k2 else nrLoop T h n k2 (nrStep T h k2)

/-- `RunupModel._newtRaph`: the wavenumber from period `T` and depth `h`,
seeded with the deep-water wavenumber `k1 = 2π/L0`, first trial `k2 = 100`
(the `np.isnan(T)` guard never fires on real-valued input). -/
noncomputable def newtRaph (T h : ℝ) : ℝ :=
  let k1 := 2 * Real.pi / (9.81 * T ^ 2 / (2 * Real.pi))
  if |100 - k1| / k1 ≤ 0.01 then 100 else nrLoop T h 1000000 k1 (nrStep T h k1)

/-- `RunupModel.__init__` (`models.py`, lines 22-84).  Arguments in source
order `(Hs, Tp, beta, Lp, h, r)`.  The two `raise ValueError` sites are the
`missingWaveLength` and `inconsistentLength` errors; arithmetic on a `None`
period (reachable when `Lp` is supplied but falsy and `Tp` is `None`) is the
`typeErrorNone` crash. -/
noncomputable def mkRunup (Hs Tp beta Lp : Arg) (h : Option ℝ) (r : Arg) :
    Except PyErr WaveState :=
  if Lp.isNone && Tp.isNone then .error .missingWaveLength
  else
    let HsL := lift1d Hs
    let betaL := lift1d beta
    let rL := lift1d r
    if Lp.falsy then
      match Tp with
      | .none => .error .typeErrorNone
      | _ =>
        let TpL := lift1d Tp
        match h with
        | some hv =>
          if hv = 0 then
            mkChecked HsL TpL betaL (fl1 (fun t => 9.81 * t ^ 2 / 2 / Real.pi) TpL) h rL
          else
            mkChecked HsL TpL betaL
              (fl1 (fun t => 2 * Real.pi / newtRaph t hv) TpL) h rL
        | Option.none =>
          mkChecked HsL TpL betaL (fl1 (fun t => 9.81 * t ^ 2 / 2 / Real.pi) TpL) h rL
    else
      let LpL := lift1d Lp
      match h with
      | some hv =>
        if hv = 0 then
          mkChecked HsL (fl1 (fun l => Real.sqrt (2 * Real.pi * l / 9.81)) LpL) betaL LpL h rL
        else
          mkChecked HsL
            (fl1 (fun l =>
              Real.sqrt ((2 * Real.pi * l) / (9.81 * Real.tanh ((2 * Real.pi * hv) / l)))) LpL)
            betaL LpL h rL
      | Option.none =>
        mkChecked HsL (fl1 (fun l => Real.sqrt (2 * Real.pi * l / 9.81)) LpL) betaL LpL h rL

/-- A model accessor result: a bare float when the array had a single
element, otherwise the array (`RunupModel._return_one_or_array`). -/
inductive PyOut where
  | scalar (x : F)
  | array (xs : List F)

/-- Is the result a sequence (as opposed to a collapsed scalar)? -/
def PyOut.isSeq : PyOut → Bool
  | .scalar _ => false
  | .array _ => true

/-- `RunupModel._return_one_or_array`: `val.item()` when `val.size == 1`. -/
def return_one_or_array (xs : List F) : PyOut :=
  if xs.length = 1 then .scalar (xs.headD Option.none) else .array xs

/-! ## Concrete model formulas (`models.py`) -/

/-- `Stockdon2006.R2`: generalized runup (Eqn 19) for every element, then the
dissipative branch (Eqn 18) overwritten through the `zeta < 0.3` mask. -/
noncomputable def stockdonR2list (s : WaveState) : List F :=
  let result := fl3 (fun b hs lp =>
    1.1 * (0.35 * b * Real.sqrt (hs * lp)
      + Real.sqrt (hs * lp * (0.563 * b ^ 2 + 0.004)) / 2)) s.beta s.Hs s.Lp
  let mask := s.zeta.map (fun z => fLT z (some 0.3))
  maskScatter mask result
    (fl2 (fun hs lp => 0.043 * Real.sqrt (hs * lp))
      (maskCompress mask s.Hs) (maskCompress mask s.Lp))

/-- `Stockdon2006.setup`: `0.35 * beta * (Hs * Lp) ** 0.5`. -/
noncomputable def stockdonSetupList (s : WaveState) : List F :=
  fl3 (fun b hs lp => 0.35 * b * Real.sqrt (hs * lp)) s.beta s.Hs s.Lp

/-- `Stockdon2006.sinc`: `0.75 * beta * (Hs * Lp) ** 0.5`. -/
noncomputable def sincList (s : WaveState) : List F :=
  fl3 (fun b hs lp => 0.75 * b * Real.sqrt (hs * lp)) s.beta s.Hs s.Lp

/-- `Stockdon2006.sig`: `0.06 * (Hs * Lp) ** 0.5`. -/
noncomputable def sigList (s : WaveState) : List F :=
  fl2 (fun hs lp => 0.06 * Real.sqrt (hs * lp)) s.Hs s.Lp

/-- `Stockdon2006.swash`: `np.sqrt(sinc ** 2 + sig ** 2)`, computed from the
`sinc` and `sig` accessors (the scalar collapse of those accessors commutes
with the elementwise arithmetic, so the array form is used). -/
noncomputable def swashList (s : WaveState) : List F :=
  fl2 (fun si sg => Real.sqrt (si ^ 2 + sg ^ 2)) (sincList s) (sigList s)

/-- The parenthesized sum of Power et al. (2018) Gene-Expression terms, in
source order, with `x1 = Hs/Lp`, `x2 = beta`, `x3 = r/Hs`. -/
noncomputable def powerSum (x1 x2 x3 : ℝ) : ℝ :=
  (x2 + (((x3 * 3) / Real.exp (-5)) * ((3 * x3) * x3)))
  + ((((x1 + x3) - 2) - (x3 - x2)) + ((x2 - x1) - x3))
  + (((x3 ^ x1) - (x3 ^ ((1 : ℝ) / 3))) - (Real.exp x2 ^ (x1 * 3)))
  + Real.sqrt (((x3 + x1) - x2) - (x2 + Real.logb 10 x3))
  + ((((x2 ^ 2) / (x1 ^ ((1 : ℝ) / 3))) ^ (x1 ^ ((1 : ℝ) / 3))) - Real.sqrt x3)
  + ((x2 + ((x3 / x1) ^ ((1 : ℝ) / 3)))
      + (Real.log 2 - (1 / (1 + Real.exp (-(x2 + x3))))))
  + ((Real.sqrt x3 - (((3 ^ 2) + 3) * (x2 ^ 2))) ^ 2)
  + ((((x3 * (-5)) ^ 2) ^ 2) + (((x3 + x3) * x1) / (x2 ^ 2)))
  + Real.log (Real.sqrt ((x2 ^ 2) + (x3 ^ ((1 : ℝ) / 3))) + ((x2 + 3) ^ ((1 : ℝ) / 3)))
  + ((((x1 / x3) * (-(5 ^ 2))) * (x3 ^ 2))
      - Real.logb 10 (1 / (1 + Real.exp (-(x2 + x3)))))
  + (x1 ^ x3)
  + Real.exp (-((((x3 / x1) ^ Real.exp 4) + (Real.exp x3 ^ 3)) ^ 2))
  + Real.exp (Real.log (x2 - x3) - Real.log (Real.exp (-((-1 + x1) ^ 2))))
  + ((Real.sqrt 4 * (((x3 / x2) - x2) - (0 - x1))) ^ 2)
  + (2 * ((((-5 * x3) + x1) * (2 - x3)) - 2))
  + ((Real.sqrt 4 * (((x3 / x2) - x2) - (0 - x1))) ^ 2)
  + ((((-5 + x1) - x2) * (x2 - x3)) * ((x1 - x2) - (-((4 : ℝ) ^ (-5 : ℤ)))))
  + (Real.exp (-((x2 + (-5 - x1)) ^ 2)) + ((x2 + 5) * (x3 ^ 2)))
  + Real.sqrt (1 / (1 + Real.exp (-((Real.exp x1 - Real.exp (-((x3 + x3) ^ 2)))
      + ((x1 ^ x3) - (x3 * 4))))))
  + ((Real.exp (-((((Real.exp (-(((Real.sqrt x3 * 4)
      + (1 / (1 + Real.exp (-(x2 + 2))))) ^ 2))) ^ 2) + x1) ^ 2))) ^ 3)

/-- `Power2018.R2`: `Hs * powerSum(x1, x2, x3)`.  The division `r / Hs` uses
numpy size-1 broadcasting because `r` is not length-checked. -/
noncomputable def powerR2list (s : WaveState) : List F :=
  let x1 := fl2 (fun hs lp => hs / lp) s.Hs s.Lp
  let x2 := s.beta
  let x3 := bcast2 (fun rv hs => rv / hs) s.r s.Hs
  fl4 (fun hs a b c => hs * powerSum a b c) s.Hs x1 x2 x3

/-- `Holman1986.R2`: `0.83 * tan(beta) * sqrt(Hs * Lp) + 0.2 * Hs`. -/
noncomputable def holmanR2list (s : WaveState) : List F :=
  fl3 (fun b hs lp => 0.83 * Real.tan b * Real.sqrt (hs * lp) + 0.2 * hs) s.beta s.Hs s.Lp

/-- `Holman1986.setup`: `0.2 * Hs`. -/
noncomputable def holmanSetupList (s : WaveState) : List F :=
  fl1 (fun hs => 0.2 * hs) s.Hs

/-- `Nielsen2009.R2`: `1.98 * LR` where `LR` is masked on `tan(beta) < 0.1`. -/
noncomputable def nielsenR2list (s : WaveState) : List F :=
  let mask := (fl1 Real.tan s.beta).map (fun t => fLT t (some 0.1))
  let LR := fl3 (fun b hs lp => 0.6 * Real.tan b * Real.sqrt (hs * lp)) s.beta s.Hs s.Lp
  let LR2 := maskScatter mask LR
    (fl2 (fun hs lp => 0.06 * Real.sqrt (hs * lp))
      (maskCompress mask s.Hs) (maskCompress mask s.Lp))
  fl1 (fun x => 1.98 * x) LR2

/-- `Ruggiero2001.R2`: `0.27 * sqrt(beta * Hs * Lp)`. -/
noncomputable def ruggieroR2list (s : WaveState) : List F :=
  fl3 (fun b hs lp => 0.27 * Real.sqrt (b * hs * lp)) s.beta s.Hs s.Lp

/-- `Vousdoukas2012.R2`: `0.53*beta*sqrt(Hs*Lp) + 0.58*tan(beta)*Hs + 0.45`. -/
noncomputable def vousdoukasR2list (s : WaveState) : List F :=
  fl3 (fun b hs lp => 0.53 * b * Real.sqrt (hs * lp) + 0.58 * Real.tan b * hs + 0.45)
    s.beta s.Hs s.Lp

/-- `Atkinson2017.R2`: `0.92*tan(beta)*sqrt(Hs*Lp) + 0.16*Hs`. -/
noncomputable def atkinsonR2list (s : WaveState) : List F :=
  fl3 (fun b hs lp => 0.92 * Real.tan b * Real.sqrt (hs * lp) + 0.16 * hs) s.beta s.Hs s.Lp

/-- `Senechal2011.R2`: `2.14 * tanh(0.4 * Hs)`. -/
noncomputable def senechalR2list (s : WaveState) : List F :=
  fl1 (fun hs => 2.14 * Real.tanh (0.4 * hs)) s.Hs

/-- `Senechal2011.sig`: `0.05 * sqrt(Hs * Lp)`. -/
noncomputable def senechalSigList (s : WaveState) : List F :=
  fl2 (fun hs lp => 0.05 * Real.sqrt (hs * lp)) s.Hs s.Lp

/-- `Passarella2018.sig` (Eqn 14). -/
noncomputable def passarellaSigList (s : WaveState) : List F :=
  fl3 (fun b hs lp =>
    (b / (0.028 + b)) + (-1 / ((2412.255 * b) - (5.521 * b * lp)))
      + ((hs - 0.711) / (0.465 + (173.470 * (hs / lp))))) s.beta s.Hs s.Lp

/-- `Passarella2018.swash` (Eqn 12). -/
noncomputable def passarellaSwashList (s : WaveState) : List F :=
  fl3 (fun b tp hs =>
    (146.737 * (b ^ 2)) + ((tp * (hs ^ 3)) / (5.800 + (10.595 * (hs ^ 3))))
      - 4397.838 * (b ^ 4)) s.beta s.Tp s.Hs

/-- `Beuzen2019.R2`: prediction of the pre-trained regressor on the rows of
`column_stack((Hs, Tp, beta))`.  The regressor artifact is an external black
box ("input vector in, scalar prediction out"); its per-row prediction is the
abstract function `gp` that parametrizes the ensemble results. -/
def beuzenR2list (gp : F → F → F → F) (s : WaveState) : List F :=
  zip3With gp s.Hs s.Tp s.beta

/-! ## The polymorphic model family and the ensemble (`ensembles.py`) -/

/-- The five members of the runup-model capability set. -/
inductive Param where
  | R2
  | setup
  | sinc
  | sig
  | swash
deriving DecidableEq

/-- The parameter name as the string used by `estimate`. -/
def Param.str : Param → String
  | .R2 => "R2"
  | .setup => "setup"
  | .sinc => "sinc"
  | .sig => "sig"
  | .swash => "swash"

/-- The concrete subclasses of `RunupModel`, in definition order (the order
`RunupModel.__subclasses__()` returns them in). -/
inductive ModelKind where
  | stockdon2006
  | power2018
  | holman1986
  | nielsen2009
  | ruggiero2001
  | vousdoukas2012
  | atkinson2017
  | senechal2011
  | beuzen2019
  | passarella2018
deriving DecidableEq

/-- `model.__name__`. -/
def modelName : ModelKind → String
  | .stockdon2006 => "Stockdon2006"
  | .power2018 => "Power2018"
  | .holman1986 => "Holman1986"
  | .nielsen2009 => "Nielsen2009"
  | .ruggiero2001 => "Ruggiero2001"
  | .vousdoukas2012 => "Vousdoukas2012"
  | .atkinson2017 => "Atkinson2017"
  | .senechal2011 => "Senechal2011"
  | .beuzen2019 => "Beuzen2019"
  | .passarella2018 => "Passarella2018"

/-- `RunupModel.__subclasses__()`. -/
def subclassList : List ModelKind :=
  [.stockdon2006, .power2018, .holman1986, .nielsen2009, .ruggiero2001,
   .vousdoukas2012, .atkinson2017, .senechal2011, .beuzen2019, .passarella2018]

/-- `hasattr(model, param)`: which accessors each model class defines. -/
def supports : ModelKind → Param → Bool
  | .stockdon2006, _ => true
  | .power2018, .R2 => true
  | .holman1986, .R2 => true
  | .holman1986, .setup => true
  | .nielsen2009, .R2 => true
  | .ruggiero2001, .R2 => true
  | .vousdoukas2012, .R2 => true
  | .atkinson2017, .R2 => true
  | .senechal2011, .R2 => true
  | .senechal2011, .sig => true
  | .beuzen2019, .R2 => true
  | .passarella2018, .sig => true
  | .passarella2018, .swash => true
  | _, _ => false

/-- The pre-collapse array value of each supported accessor (the `result`
before `_return_one_or_array`).  Unsupported pairs are never queried by the
ensemble (it capability-checks with `hasattr`) and return the empty array. -/
noncomputable def paramList (gp : F → F → F → F) : ModelKind → Param → WaveState → List F
  | .stockdon2006, .R2, s => stockdonR2list s
  | .stockdon2006, .setup, s => stockdonSetupList s
  | .stockdon2006, .sinc, s => sincList s
  | .stockdon2006, .sig, s => sigList s
  | .stockdon2006, .swash, s => swashList s
  | .power2018, .R2, s => powerR2list s
  | .holman1986, .R2, s => holmanR2list s
  | .holman1986, .setup, s => holmanSetupList s
  | .nielsen2009, .R2, s => nielsenR2list s
  | .ruggiero2001, .R2, s => ruggieroR2list s
  | .vousdoukas2012, .R2, s => vousdoukasR2list s
  | .atkinson2017, .R2, s => atkinsonR2list s
  | .senechal2011, .R2, s => senechalR2list s
  | .senechal2011, .sig, s => senechalSigList s
  | .beuzen2019, .R2, s => beuzenR2list gp s
  | .passarella2018, .sig, s => passarellaSigList s
  | .passarella2018, .swash, s => passarellaSwashList s
  | _, _, _ => []

/-- An accessor value as the caller sees it (after the scalar collapse). -/
noncomputable def evalParam (gp : F → F → F → F) (m : ModelKind) (p : Param)
    (s : WaveState) : PyOut :=
  return_one_or_array (paramList gp m p s)

/-- The Stockdon2006 accessors as claim-level functions of a constructed
state. -/
noncomputable def Stockdon2006.R2 (s : WaveState) : PyOut :=
  return_one_or_array (stockdonR2list s)

/-- `Stockdon2006.setup` accessor. -/
noncomputable def Stockdon2006.setup (s : WaveState) : PyOut :=
  return_one_or_array (stockdonSetupList s)

/-- `Stockdon2006.sinc` accessor. -/
noncomputable def Stockdon2006.sinc (s : WaveState) : PyOut :=
  return_one_or_array (sincList s)

/-- `Stockdon2006.sig` accessor. -/
noncomputable def Stockdon2006.sig (s : WaveState) : PyOut :=
  return_one_or_array (sigList s)

/-- `Stockdon2006.swash` accessor. -/
noncomputable def Stockdon2006.swash (s : WaveState) : PyOut :=
  return_one_or_array (swashList s)

/-- The constructor arguments stored by `EnsembleRaw.__init__` (all default
to `None`). -/
structure EnsembleRaw where
  Hs : Arg
  Tp : Arg
  beta : Arg
  Lp : Arg
  r : Arg

/-- The `valid_params` list of `EnsembleRaw._model_estimates`, as a parse:
`Option.none` exactly on the strings outside `["R2","setup","sig","sinc","swash"]`. -/
def paramOfString (s : String) : Option Param :=
  if s = "R2" then some .R2
  else if s = "setup" then some .setup
  else if s = "sig" then some .sig
  else if s = "sinc" then some .sinc
  else if s = "swash" then some .swash
  else Option.none

/-- Sequential effectful map: the `for model in self.runup_models` loop; the
first exception aborts the whole call, and the results keep loop order. -/
def exceptMapM {α β : Type} (f : α → Except PyErr β) : List α → Except PyErr (List β)
  | [] => .ok []
  | a :: as =>
    match f a with
    | .error e => .error e
    | .ok b => (exceptMapM f as).map (fun bs => b :: bs)

/-- `EnsembleRaw._model_estimates(param)`: validate `param`, then for every
model class with the attribute, instantiate
`model(Hs=self.Hs, Tp=self.Tp, beta=self.beta, r=self.r)` — note that the
stored `Lp` is not forwarded and no depth is passed — and record the column
`{ModelName}_{param}`. -/
noncomputable def EnsembleRaw.model_estimates (gp : F → F → F → F) (e : EnsembleRaw)
    (param : String) : Except PyErr (List (String × PyOut)) :=
  match paramOfString param with
  | Option.none => .error .invalidParameter
  | some p =>
    exceptMapM
      (fun m =>
        (mkRunup e.Hs e.Tp e.beta Arg.none Option.none e.r).map
          (fun s => (modelName m ++ "_" ++ param, evalParam gp m p s)))
      (subclassList.filter (fun m => supports m p))

/-- `EnsembleRaw.estimate(param)` delegates to `_model_estimates`. -/
noncomputable def EnsembleRaw.estimate (gp : F → F → F → F) (e : EnsembleRaw)
    (param : String) : Except PyErr (List (String × PyOut)) :=
  e.model_estimates gp param

/-! ## Basic lemmas about the array operations -/

theorem zip3With_getElem {α β γ δ : Type} (g : α → β → γ → δ) :
    ∀ (xs : List α) (ys : List β) (zs : List γ) (i : Nat) (a : α) (b : β) (c : γ),
      xs[i]? = some a → ys[i]? = some b → zs[i]? = some c →
      (zip3With g xs ys zs)[i]? = some (g a b c)
  | [], _, _, i, _, _, _ => by simp
  | _ :: _, [], _, i, _, _, _ => by simp
  | _ :: _, _ :: _, [], i, _, _, _ => by simp
  | x :: xs, y :: ys, z :: zs, 0, a, b, c => by
    intro ha hb hc
    simp only [List.getElem?_cons_zero, Option.some.injEq] at ha hb hc
    subst ha; subst hb; subst hc
    simp [zip3With]
  | x :: xs, y :: ys, z :: zs, i + 1, a, b, c => by
    intro ha hb hc
    simp only [List.getElem?_cons_succ] at ha hb hc
    simpa [zip3With] using zip3With_getElem g xs ys zs i a b c ha hb hc

theorem zipWith_getElem {α β γ : Type} (g : α → β → γ) :
    ∀ (xs : List α) (ys : List β) (i : Nat) (a : α) (b : β),
      xs[i]? = some a → ys[i]? = some b →
      (List.zipWith g xs ys)[i]? = some (g a b)
  | [], _, i, _, _ => by simp
  | _ :: _, [], i, _, _ => by simp
  | x :: xs, y :: ys, 0, a, b => by
    intro ha hb
    simp only [List.getElem?_cons_zero, Option.some.injEq] at ha hb
    subst ha; subst hb
    simp
  | x :: xs, y :: ys, i + 1, a, b => by
    intro ha hb
    simp only [List.getElem?_cons_succ] at ha hb
    simpa using zipWith_getElem g xs ys i a b ha hb

theorem maskScatter_length {α : Type} :
    ∀ (mask : List Bool) (xs vals : List α), (maskScatter mask xs vals).length = xs.length
  | [], xs, vals => rfl
  | true :: ms, [], vals => rfl
  | false :: ms, [], vals => rfl
  | true :: ms, x :: xs, [] => rfl
  | true :: ms, x :: xs, v :: vs => by
    simp [maskScatter, maskScatter_length ms xs vs]
  | false :: ms, x :: xs, vals => by
    simp [maskScatter, maskScatter_length ms xs vals]

/-- The key fact about numpy masked assignment: scattering values computed
from the mask-compressed arrays is elementwise selection by the mask. -/
theorem maskScatter_zipWith_getElem {α β : Type} (f : α → α → β) :
    ∀ (mask : List Bool) (res : List β) (xs ys : List α) (i : Nat)
      (m : Bool) (w : β) (a b : α),
      mask[i]? = some m → res[i]? = some w → xs[i]? = some a → ys[i]? = some b →
      (maskScatter mask res
        (List.zipWith f (maskCompress mask xs) (maskCompress mask ys)))[i]? =
        some (if m then f a b else w)
  | [], _, _, _, i, _, _, _, _ => by simp
  | _ :: _, [], _, _, i, _, _, _, _ => by simp
  | _ :: _, _ :: _, [], _, i, _, _, _, _ => by simp
  | _ :: _, _ :: _, _ :: _, [], i, _, _, _, _ => by simp
  | mv :: ms, r0 :: res, x :: xs, y :: ys, 0, m, w, a, b => by
    intro hm hw ha hb
    simp only [List.getElem?_cons_zero, Option.some.injEq] at hm hw ha hb
    subst hm; subst hw; subst ha; subst hb
    cases mv <;> simp [maskCompress, maskScatter]
  | mv :: ms, r0 :: res, x :: xs, y :: ys, i + 1, m, w, a, b => by
    intro hm hw ha hb
    simp only [List.getElem?_cons_succ] at hm hw ha hb
    have ih := maskScatter_zipWith_getElem f ms res xs ys i m w a b hm hw ha hb
    cases mv
    · simpa [maskCompress, maskScatter] using ih
    · simpa [maskCompress, maskScatter] using ih

theorem zip3With_length {α β γ δ : Type} (g : α → β → γ → δ) :
    ∀ (xs : List α) (ys : List β) (zs : List γ),
      (zip3With g xs ys zs).length = min xs.length (min ys.length zs.length)
  | [], ys, zs => by simp [zip3With]
  | x :: xs, [], zs => by simp [zip3With]
  | x :: xs, y :: ys, [] => by simp [zip3With]
  | x :: xs, y :: ys, z :: zs => by
    simp [zip3With, zip3With_length g xs ys zs, Nat.succ_min_succ]

theorem zip4With_length {α β γ δ ε : Type} (g : α → β → γ → δ → ε) :
    ∀ (xs : List α) (ys : List β) (zs : List γ) (ws : List δ),
      (zip4With g xs ys zs ws).length =
        min xs.length (min ys.length (min zs.length ws.length))
  | [], ys, zs, ws => by simp [zip4With]
  | x :: xs, [], zs, ws => by simp [zip4With]
  | x :: xs, y :: ys, [], ws => by simp [zip4With]
  | x :: xs, y :: ys, z :: zs, [] => by simp [zip4With]
  | x :: xs, y :: ys, z :: zs, w :: ws => by
    simp [zip4With, zip4With_length g xs ys zs ws, Nat.succ_min_succ]

theorem fl1_length (g : ℝ → ℝ) (xs : List F) : (fl1 g xs).length = xs.length := by
  simp [fl1]

theorem fl2_length (g : ℝ → ℝ → ℝ) (xs ys : List F) :
    (fl2 g xs ys).length = min xs.length ys.length := by
  simp [fl2]

theorem fl3_length (g : ℝ → ℝ → ℝ → ℝ) (xs ys zs : List F) :
    (fl3 g xs ys zs).length = min xs.length (min ys.length zs.length) :=
  zip3With_length _ xs ys zs

theorem fl4_length (g : ℝ → ℝ → ℝ → ℝ → ℝ) (xs ys zs ws : List F) :
    (fl4 g xs ys zs ws).length =
      min xs.length (min ys.length (min zs.length ws.length)) :=
  zip4With_length _ xs ys zs ws

/-! ## Inversion of the constructor -/

theorem mkChecked_ok {A B C D : List F} {hh : Option ℝ} {R : List F} {s : WaveState}
    (hok : mkChecked A B C D hh R = .ok s) :
    s.zeta = fl3 zf s.beta s.Hs s.Lp ∧ s.Hs.length = s.Tp.length ∧
      s.Tp.length = s.beta.length ∧ s.beta.length = s.Lp.length ∧
      s.Hs = A ∧ s.Tp = B ∧ s.beta = C ∧ s.Lp = D ∧ s.r = R ∧ s.h = hh := by
  unfold mkChecked at hok
  split at hok
  · rename_i hcond
    cases hok
    exact ⟨rfl, hcond.1, hcond.2.1, hcond.2.2, rfl, rfl, rfl, rfl, rfl, rfl⟩
  · exact absurd hok (by simp)

/-- Everything `__init__` guarantees on success, independent of the branch
taken: the `zeta` formula, the four checked lengths, and the stored raw
fields. -/
theorem mkRunup_ok {Hs Tp beta Lp : Arg} {h : Option ℝ} {r : Arg} {s : WaveState}
    (hok : mkRunup Hs Tp beta Lp h r = .ok s) :
    s.zeta = fl3 zf s.beta s.Hs s.Lp ∧ s.Hs.length = s.Tp.length ∧
      s.Tp.length = s.beta.length ∧ s.beta.length = s.Lp.length ∧
      s.Hs = lift1d Hs ∧ s.beta = lift1d beta ∧ s.r = lift1d r ∧ s.h = h := by
  unfold mkRunup at hok
  split at hok
  · exact absurd hok (by simp)
  · split at hok
    · split at hok
      · exact absurd hok (by simp)
      · split at hok
        · split at hok
          · obtain ⟨z, l1, l2, l3, e1, _, e3, _, e5, e6⟩ := mkChecked_ok hok
            exact ⟨z, l1, l2, l3, e1, e3, e5, e6⟩
          · obtain ⟨z, l1, l2, l3, e1, _, e3, _, e5, e6⟩ := mkChecked_ok hok
            exact ⟨z, l1, l2, l3, e1, e3, e5, e6⟩
        · obtain ⟨z, l1, l2, l3, e1, _, e3, _, e5, e6⟩ := mkChecked_ok hok
          exact ⟨z, l1, l2, l3, e1, e3, e5, e6⟩
    · split at hok
      · split at hok
        · obtain ⟨z, l1, l2, l3, e1, _, e3, _, e5, e6⟩ := mkChecked_ok hok
          exact ⟨z, l1, l2, l3, e1, e3, e5, e6⟩
        · obtain ⟨z, l1, l2, l3, e1, _, e3, _, e5, e6⟩ := mkChecked_ok hok
          exact ⟨z, l1, l2, l3, e1, e3, e5, e6⟩
      · obtain ⟨z, l1, l2, l3, e1, _, e3, _, e5, e6⟩ := mkChecked_ok hok
        exact ⟨z, l1, l2, l3, e1, e3, e5, e6⟩

/-! ## Evaluation lemmas for concrete constructions -/

/-- Scalar construction through the `Tp` branch with no depth: the stored
wave length is the deep-water `9.81 * Tp² / (2π)`. -/
theorem mkRunup_scalarTp (a t b : ℝ) (rA : Arg) :
    mkRunup (Arg.scalar a) (Arg.scalar t) (Arg.scalar b) Arg.none Option.none rA =
      .ok ⟨[some a], [some t], [some b], [some (9.81 * t ^ 2 / 2 / Real.pi)],
        Option.none, lift1d rA, [some (zf b a (9.81 * t ^ 2 / 2 / Real.pi))]⟩ := rfl

/-- Scalar construction through the `Lp` branch with no depth: the stored
period is recomputed as `sqrt(2π·Lp/9.81)`; the supplied `t` is discarded. -/
theorem mkRunup_scalarLp_noh (a : ℝ) (TpA : Arg) (b L : ℝ) (rA : Arg) (hL : L ≠ 0) :
    mkRunup (Arg.scalar a) TpA (Arg.scalar b) (Arg.scalar L) Option.none rA =
      .ok ⟨[some a], [some (Real.sqrt (2 * Real.pi * L / 9.81))], [some b], [some L],
        Option.none, lift1d rA, [some (zf b a L)]⟩ := by
  have hfal : Arg.falsy (Arg.scalar L) = false := by simp [Arg.falsy, hL]
  unfold mkRunup
  simp [Arg.isNone, hfal, mkChecked, fl1, fl3, zip3With, omap3, lift1d]

/-- Scalar construction through the `Lp` branch with a nonzero depth: the
stored period comes from the algebraic dispersion relation. -/
theorem mkRunup_scalarLp_h (a : ℝ) (TpA : Arg) (b L hv : ℝ) (rA : Arg) (hL : L ≠ 0) (hh : hv ≠ 0) :
    mkRunup (Arg.scalar a) TpA (Arg.scalar b) (Arg.scalar L) (some hv) rA =
      .ok ⟨[some a],
        [some (Real.sqrt ((2 * Real.pi * L) / (9.81 * Real.tanh ((2 * Real.pi * hv) / L))))],
        [some b], [some L], some hv, lift1d rA, [some (zf b a L)]⟩ := by
  have hfal : Arg.falsy (Arg.scalar L) = false := by simp [Arg.falsy, hL]
  unfold mkRunup
  simp [Arg.isNone, hfal, hh, mkChecked, fl1, fl3, zip3With, omap3, lift1d]

/-- Scalar construction through the `Lp` branch with a zero depth: `if self.h:`
is falsy at `0.0`, so the deep-water formula is used. -/
theorem mkRunup_scalarLp_h0 (a : ℝ) (TpA : Arg) (b L : ℝ) (rA : Arg) (hL : L ≠ 0) :
    mkRunup (Arg.scalar a) TpA (Arg.scalar b) (Arg.scalar L) (some 0) rA =
      .ok ⟨[some a], [some (Real.sqrt (2 * Real.pi * L / 9.81))], [some b], [some L],
        some 0, lift1d rA, [some (zf b a L)]⟩ := by
  have hfal : Arg.falsy (Arg.scalar L) = false := by simp [Arg.falsy, hL]
  unfold mkRunup
  simp [Arg.isNone, hfal, mkChecked, fl1, fl3, zip3With, omap3, lift1d]

/-- The length-2 list construction through the `Lp` branch used by several
witnesses. -/
noncomputable def demo2S : WaveState :=
  ⟨[some 1, some 2],
   [some (Real.sqrt (2 * Real.pi * 100 / 9.81)), some (Real.sqrt (2 * Real.pi * 200 / 9.81))],
   [some 0.1, some 0.2], [some 100, some 200], Option.none, [Option.none],
   [some (zf 0.1 1 100), some (zf 0.2 2 200)]⟩

theorem demo2_ok :
    mkRunup (Arg.array [1, 2]) Arg.none (Arg.array [0.1, 0.2]) (Arg.array [100, 200])
      Option.none Arg.none = .ok demo2S := rfl

/-! ## Claims about construction -/

/-- C1: the spec (and the repository's own test `test_no_roughness`) say that
constructing `Power2018` without `r` fails with `MissingRoughnessError`.  The
inherited `__init__` has no such check: `np.atleast_1d(None).astype(float)`
turns the absent roughness into the float array `[nan]` and construction
succeeds (the `EnsembleRaw` doctest even shows the resulting NaN `R2`
column).  At the spec's example `(Hs=1, Tp=8, beta=0.07)` construction with
`r` absent succeeds with a NaN roughness, and with `r=0.00075` it also
succeeds. -/
theorem c1_power2018_without_r_constructs :
    mkRunup (Arg.scalar 1) (Arg.scalar 8) (Arg.scalar 0.07) Arg.none Option.none
        Arg.none =
      .ok ⟨[some 1], [some 8], [some 0.07], [some (9.81 * 8 ^ 2 / 2 / Real.pi)],
        Option.none, [Option.none], [some (zf 0.07 1 (9.81 * 8 ^ 2 / 2 / Real.pi))]⟩ ∧
    isOkE (mkRunup (Arg.scalar 1) (Arg.scalar 8) (Arg.scalar 0.07) Arg.none Option.none
      (Arg.scalar 0.00075)) = true :=
  ⟨mkRunup_scalarTp 1 8 0.07 Arg.none, rfl⟩

/-- C2 counterexample: the claim also requires that *exactly one* of
`{Tp, Lp}` be supplied for construction to succeed; but supplying both is
accepted (the wave length simply wins). -/
theorem c2_both_tp_and_lp_accepted :
    isOkE (mkRunup (Arg.scalar 1) (Arg.scalar 8) (Arg.scalar 0.1) (Arg.scalar 100)
      Option.none Arg.none) = true := by
  rw [mkRunup_scalarLp_noh 1 (Arg.scalar 8) 0.1 100 Arg.none (by norm_num)]
  rfl

/-- C2 amended: construction with neither `Tp` nor `Lp` always fails with
`MissingWaveLengthError`; supplying at least one is necessary, but both may
be supplied together (then construction succeeds, with `Lp` taking
precedence). -/
theorem c2_at_least_one_of_tp_lp_required :
    (∀ (Hs beta : Arg) (h : Option ℝ) (r : Arg),
      mkRunup Hs Arg.none beta Arg.none h r = .error .missingWaveLength) ∧
    isOkE (mkRunup (Arg.scalar 4) (Arg.scalar 11) (Arg.scalar 0.1) (Arg.scalar 200)
      Option.none Arg.none) = true :=
  ⟨fun _ _ _ _ => rfl, by
    rw [mkRunup_scalarLp_noh 4 (Arg.scalar 11) 0.1 200 Arg.none (by norm_num)]
    rfl⟩

/-- C3 counterexample: a roughness array whose length disagrees with every
other input is accepted, because `r` is missing from the size-checked list
`[self.Hs, self.Tp, self.beta, self.Lp]`. -/
theorem c3_mismatched_r_accepted :
    isOkE (mkRunup (Arg.array [1, 2]) Arg.none (Arg.array [0.1, 0.1])
      (Arg.array [100, 200]) Option.none (Arg.array [1, 2, 3])) = true := rfl

/-- C3 amended: after scalar lifting, `Hs`, `Tp`, `beta` and `Lp` must all
have identical length — any mismatch among *these four* fails with
`InconsistentLengthError` (witnessed by the spec's example
`Hs=[1,2], Lp=[100,200], beta=[0.1]`) — but `r` is not included in the
check, so a mismatched roughness is accepted. -/
theorem c3_lengths_checked_without_r :
    (∀ (Hs Tp beta Lp : Arg) (h : Option ℝ) (r : Arg) (s : WaveState),
      mkRunup Hs Tp beta Lp h r = .ok s →
        s.Hs.length = s.Tp.length ∧ s.Tp.length = s.beta.length ∧
          s.beta.length = s.Lp.length) ∧
    mkRunup (Arg.array [1, 2]) Arg.none (Arg.array [0.1]) (Arg.array [100, 200])
      Option.none Arg.none = .error .inconsistentLength :=
  ⟨fun _ _ _ _ _ _ _ hok =>
    ⟨(mkRunup_ok hok).2.1, (mkRunup_ok hok).2.2.1, (mkRunup_ok hok).2.2.2.1⟩, rfl⟩

theorem c3_lengths_checked_without_r_witness :
    mkRunup (Arg.array [1, 2]) Arg.none (Arg.array [0.1, 0.2]) (Arg.array [100, 200])
      Option.none Arg.none = .ok demo2S ∧
    demo2S.Hs.length = demo2S.Tp.length ∧ demo2S.Tp.length = demo2S.beta.length ∧
      demo2S.beta.length = demo2S.Lp.length :=
  ⟨demo2_ok, c3_lengths_checked_without_r.1 _ _ _ _ _ _ _ demo2_ok⟩

/-- C9: deriving `Lp` from `Tp > 0` by the deep-water approximation
`Lp = 9.81·Tp²/(2π)` (no depth given), then constructing from that `Lp`
alone, stores `Tp = sqrt(2π·Lp/9.81)`, which reproduces the original period —
exactly, in the real-number model, hence in particular within floating-point
tolerance. -/
theorem c9_deepwater_roundtrip (hs b t : ℝ) (ht : 0 < t) :
    (mkRunup (Arg.scalar hs) (Arg.scalar t) (Arg.scalar b) Arg.none Option.none
        Arg.none).map WaveState.Lp = .ok [some (9.81 * t ^ 2 / 2 / Real.pi)] ∧
    (mkRunup (Arg.scalar hs) Arg.none (Arg.scalar b)
        (Arg.scalar (9.81 * t ^ 2 / 2 / Real.pi)) Option.none Arg.none).map
      WaveState.Tp = .ok [some t] := by
  have hpos : 0 < 9.81 * t ^ 2 / 2 / Real.pi := by positivity
  constructor
  · rw [mkRunup_scalarTp hs t b Arg.none]
    rfl
  · rw [mkRunup_scalarLp_noh hs Arg.none b (9.81 * t ^ 2 / 2 / Real.pi) Arg.none
      (ne_of_gt hpos)]
    have harg : 2 * Real.pi * (9.81 * t ^ 2 / 2 / Real.pi) / 9.81 = t ^ 2 := by
      have hpi : Real.pi ≠ 0 := Real.pi_ne_zero
      field_simp
    have harg2 : Real.sqrt (2 * Real.pi * (9.81 * t ^ 2 / 2 / Real.pi) / 9.81) = t := by
      rw [harg, Real.sqrt_sq ht.le]
    rw [harg2]
    rfl

theorem c9_deepwater_roundtrip_witness :
    (0 : ℝ) < 8 ∧
    (mkRunup (Arg.scalar 1) Arg.none (Arg.scalar 0.1)
        (Arg.scalar (9.81 * 8 ^ 2 / 2 / Real.pi)) Option.none Arg.none).map
      WaveState.Tp = .ok [some 8] :=
  ⟨by norm_num, (c9_deepwater_roundtrip 1 0.1 8 (by norm_num)).2⟩

/-- This is the period recomputation exactly as the claim words it: deep
water when no `h` is given, the `tanh` dispersion form whenever an `h` is
given (the claim places no nonzero condition on `h`).  Stated for comparison
with `mkRunup`, which tests Python truthiness of `h`. -/
noncomputable def claimTpFromLp (L : ℝ) (h : Option ℝ) : ℝ :=
  match h with
  | Option.none => Real.sqrt (2 * Real.pi * L / 9.81)
  | some hv => Real.sqrt ((2 * Real.pi * L) / (9.81 * Real.tanh ((2 * Real.pi * hv) / L)))

/-- C10 counterexample: with a *zero* depth supplied, `if self.h:` is falsy,
so the code stores the deep-water period, while the claim's formula divides
by `tanh(0) = 0` (NaN/inf in floats, junk 0 in the real model) — the stored
period differs from the claim's formula when `h = 0` is given. -/
theorem c10_zero_depth_uses_deepwater :
    (mkRunup (Arg.scalar 4) (Arg.scalar 8) (Arg.scalar 0.1) (Arg.scalar 100) (some 0)
        Arg.none).map WaveState.Tp = .ok [some (Real.sqrt (2 * Real.pi * 100 / 9.81))] ∧
    Real.sqrt (2 * Real.pi * 100 / 9.81) ≠ claimTpFromLp 100 (some 0) := by
  constructor
  · rw [mkRunup_scalarLp_h0 4 (Arg.scalar 8) 0.1 100 Arg.none (by norm_num)]
    rfl
  · have h1 : claimTpFromLp 100 (some 0) = 0 := by
      simp [claimTpFromLp, Real.tanh_zero]
    rw [h1]
    exact ne_of_gt (Real.sqrt_pos.mpr (by positivity))

/-- C10 amended: when both `Tp` and a nonzero `Lp` are supplied, construction
succeeds and the supplied `Tp` is silently discarded: the stored period is
`sqrt(2π·Lp/9.81)` when no depth (or a zero depth) is given, and
`sqrt((2π·Lp)/(9.81·tanh(2π·h/Lp)))` when a *nonzero* depth `h` is given —
independent of the `t` the caller passed. -/
theorem c10_tp_recomputed_from_lp (a t b L hv : ℝ) (hL : L ≠ 0) (hh : hv ≠ 0) :
    (mkRunup (Arg.scalar a) (Arg.scalar t) (Arg.scalar b) (Arg.scalar L) Option.none
        Arg.none).map WaveState.Tp = .ok [some (Real.sqrt (2 * Real.pi * L / 9.81))] ∧
    (mkRunup (Arg.scalar a) (Arg.scalar t) (Arg.scalar b) (Arg.scalar L) (some hv)
        Arg.none).map WaveState.Tp =
      .ok [some (Real.sqrt ((2 * Real.pi * L) / (9.81 * Real.tanh ((2 * Real.pi * hv) / L))))] := by
  constructor
  · rw [mkRunup_scalarLp_noh a (Arg.scalar t) b L Arg.none hL]
    rfl
  · rw [mkRunup_scalarLp_h a (Arg.scalar t) b L hv Arg.none hL hh]
    rfl

theorem c10_tp_recomputed_from_lp_witness :
    (100 : ℝ) ≠ 0 ∧ (2 : ℝ) ≠ 0 ∧
    (mkRunup (Arg.scalar 4) (Arg.scalar 8) (Arg.scalar 0.1) (Arg.scalar 100) (some 2)
        Arg.none).map WaveState.Tp =
      .ok [some (Real.sqrt ((2 * Real.pi * 100) / (9.81 * Real.tanh ((2 * Real.pi * 2) / 100))))] :=
  ⟨by norm_num, by norm_num,
    (c10_tp_recomputed_from_lp 4 8 0.1 100 2 (by norm_num) (by norm_num)).2⟩

/-! ## Stockdon2006 elementwise results -/

/-- `stockdonR2list` with the numpy temporaries written out. -/
theorem stockdonR2list_eq (s : WaveState) :
    stockdonR2list s =
      maskScatter (s.zeta.map (fun z => fLT z (some 0.3)))
        (fl3 (fun b hs lp => 1.1 * (0.35 * b * Real.sqrt (hs * lp)
          + Real.sqrt (hs * lp * (0.563 * b ^ 2 + 0.004)) / 2)) s.beta s.Hs s.Lp)
        (List.zipWith (Option.map₂ (fun hs lp => 0.043 * Real.sqrt (hs * lp)))
          (maskCompress (s.zeta.map (fun z => fLT z (some 0.3))) s.Hs)
          (maskCompress (s.zeta.map (fun z => fLT z (some 0.3))) s.Lp)) := rfl

/-- The state of the spec's worked example `Stockdon2006(Hs=4, Tp=11, beta=0.1)`. -/
noncomputable def demoS : WaveState :=
  ⟨[some 4], [some 11], [some 0.1], [some (9.81 * 11 ^ 2 / 2 / Real.pi)], Option.none,
   [Option.none], [some (zf 0.1 4 (9.81 * 11 ^ 2 / 2 / Real.pi))]⟩

theorem demoS_ok :
    mkRunup (Arg.scalar 4) (Arg.scalar 11) (Arg.scalar 0.1) Arg.none Option.none Arg.none
      = .ok demoS := mkRunup_scalarTp 4 11 0.1 Arg.none

/-- C4: on any constructed `Stockdon2006` state, `R2` is selected
independently per element by the `zeta < 0.3` mask — Eqn 18
(`0.043·sqrt(Hs·Lp)`) where `zeta[i] < 0.3` and Eqn 19 otherwise — with
`zeta = beta / sqrt(Hs / Lp)`. -/
theorem c4_stockdon_r2_per_element (Hs Tp beta Lp : Arg) (h : Option ℝ) (r : Arg)
    (s : WaveState) (i : Nat) (a b c z : ℝ)
    (hok : mkRunup Hs Tp beta Lp h r = .ok s)
    (ha : s.Hs[i]? = some (some a)) (hb : s.Lp[i]? = some (some b))
    (hc : s.beta[i]? = some (some c)) (hz : s.zeta[i]? = some (some z)) :
    z = c / Real.sqrt (a / b) ∧
    (stockdonR2list s)[i]? =
      some (if z < 0.3 then some (0.043 * Real.sqrt (a * b))
        else some (1.1 * (0.35 * c * Real.sqrt (a * b)
          + Real.sqrt (a * b * (0.563 * c ^ 2 + 0.004)) / 2))) := by
  have hzeta : s.zeta = fl3 zf s.beta s.Hs s.Lp := (mkRunup_ok hok).1
  have hzi : s.zeta[i]? = some (omap3 zf (some c) (some a) (some b)) := by
    rw [hzeta]
    exact zip3With_getElem _ _ _ _ _ _ _ _ hc ha hb
  rw [hz] at hzi
  have hzv : z = zf c a b := by
    simpa [omap3, eq_comm] using hzi
  constructor
  · simpa [zf] using hzv
  · have hm : (s.zeta.map (fun zz => fLT zz (some 0.3)))[i]? =
        some (fLT (some z) (some 0.3)) := by
      rw [List.getElem?_map, hz]
      rfl
    have hres : (fl3 (fun bb hs lp => 1.1 * (0.35 * bb * Real.sqrt (hs * lp)
        + Real.sqrt (hs * lp * (0.563 * bb ^ 2 + 0.004)) / 2)) s.beta s.Hs s.Lp)[i]? =
        some (some (1.1 * (0.35 * c * Real.sqrt (a * b)
          + Real.sqrt (a * b * (0.563 * c ^ 2 + 0.004)) / 2))) :=
      zip3With_getElem _ _ _ _ _ _ _ _ hc ha hb
    have hkey := maskScatter_zipWith_getElem
      (Option.map₂ (fun hs lp => 0.043 * Real.sqrt (hs * lp)))
      (s.zeta.map (fun zz => fLT zz (some 0.3)))
      (fl3 (fun bb hs lp => 1.1 * (0.35 * bb * Real.sqrt (hs * lp)
        + Real.sqrt (hs * lp * (0.563 * bb ^ 2 + 0.004)) / 2)) s.beta s.Hs s.Lp)
      s.Hs s.Lp i (fLT (some z) (some 0.3)) _ (some a) (some b) hm hres ha hb
    rw [stockdonR2list_eq, hkey]
    by_cases hlt : z < 0.3
    · simp [fLT, hlt]
    · simp [fLT, hlt]

theorem c4_stockdon_r2_per_element_witness :
    (zf 0.1 4 (9.81 * 11 ^ 2 / 2 / Real.pi) : ℝ) =
      0.1 / Real.sqrt (4 / (9.81 * 11 ^ 2 / 2 / Real.pi)) ∧
    (stockdonR2list demoS)[0]? =
      some (if (zf 0.1 4 (9.81 * 11 ^ 2 / 2 / Real.pi) : ℝ) < 0.3 then
        some (0.043 * Real.sqrt (4 * (9.81 * 11 ^ 2 / 2 / Real.pi)))
      else
        some (1.1 * (0.35 * 0.1 * Real.sqrt (4 * (9.81 * 11 ^ 2 / 2 / Real.pi))
          + Real.sqrt (4 * (9.81 * 11 ^ 2 / 2 / Real.pi)
            * (0.563 * 0.1 ^ 2 + 0.004)) / 2))) :=
  c4_stockdon_r2_per_element (Arg.scalar 4) (Arg.scalar 11) (Arg.scalar 0.1) Arg.none
    Option.none Arg.none demoS 0 4 (9.81 * 11 ^ 2 / 2 / Real.pi) 0.1
    (zf 0.1 4 (9.81 * 11 ^ 2 / 2 / Real.pi)) demoS_ok (by simp [demoS]) (by simp [demoS])
    (by simp [demoS]) (by simp [demoS])

/-- C5: for valid scalar `(Hs, Tp, beta)` with `Hs>0`, `Tp>0`, `0<beta<1`,
the Stockdon2006 `swash` accessor is exactly `sqrt(sinc² + sig²)` of the same
instance's `sinc` and `sig` accessors. -/
theorem c5_swash_pythagorean (a t b : ℝ) (s : WaveState)
    (_hHs : 0 < a) (_hTp : 0 < t) (_hb0 : 0 < b) (_hb1 : b < 1)
    (hok : mkRunup (Arg.scalar a) (Arg.scalar t) (Arg.scalar b) Arg.none Option.none
      Arg.none = .ok s) :
    ∃ vi vg : ℝ, Stockdon2006.sinc s = .scalar (some vi) ∧
      Stockdon2006.sig s = .scalar (some vg) ∧
      Stockdon2006.swash s = .scalar (some (Real.sqrt (vi ^ 2 + vg ^ 2))) := by
  rw [mkRunup_scalarTp a t b Arg.none] at hok
  injection hok with hok
  subst hok
  refine ⟨0.75 * b * Real.sqrt (a * (9.81 * t ^ 2 / 2 / Real.pi)),
    0.06 * Real.sqrt (a * (9.81 * t ^ 2 / 2 / Real.pi)), ?_, ?_, ?_⟩ <;>
    simp [Stockdon2006.sinc, Stockdon2006.sig, Stockdon2006.swash, sincList, sigList,
      swashList, fl3, fl2, zip3With, omap3, Option.map₂, return_one_or_array, lift1d]

theorem c5_swash_pythagorean_witness :
    ∃ vi vg : ℝ, Stockdon2006.sinc demoS = .scalar (some vi) ∧
      Stockdon2006.sig demoS = .scalar (some vg) ∧
      Stockdon2006.swash demoS = .scalar (some (Real.sqrt (vi ^ 2 + vg ^ 2))) :=
  c5_swash_pythagorean 4 11 0.1 demoS (by norm_num) (by norm_num) (by norm_num)
    (by norm_num) demoS_ok

/-! ## Output-shape rule -/

/-- `nielsenR2list` with the numpy temporaries written out. -/
theorem nielsenR2list_eq (s : WaveState) :
    nielsenR2list s =
      fl1 (fun x => 1.98 * x)
        (maskScatter ((fl1 Real.tan s.beta).map (fun t => fLT t (some 0.1)))
          (fl3 (fun b hs lp => 0.6 * Real.tan b * Real.sqrt (hs * lp)) s.beta s.Hs s.Lp)
          (List.zipWith (Option.map₂ (fun hs lp => 0.06 * Real.sqrt (hs * lp)))
            (maskCompress ((fl1 Real.tan s.beta).map (fun t => fLT t (some 0.1))) s.Hs)
            (maskCompress ((fl1 Real.tan s.beta).map (fun t => fLT t (some 0.1))) s.Lp))) :=
  rfl

/-- `powerR2list` with the numpy temporaries written out. -/
theorem powerR2list_eq (s : WaveState) :
    powerR2list s =
      fl4 (fun hs a b c => hs * powerSum a b c) s.Hs
        (fl2 (fun hs lp => hs / lp) s.Hs s.Lp) s.beta
        (bcast2 (fun rv hs => rv / hs) s.r s.Hs) := rfl

theorem bcast2_length (g : ℝ → ℝ → ℝ) (xs ys : List F) (n : Nat)
    (hy : ys.length = n) (hx : xs.length = n ∨ xs.length = 1) :
    (bcast2 g xs ys).length = n := by
  unfold bcast2
  by_cases h1 : xs.length = 1
  · simp [h1, hy]
  · rcases hx with hx | hx
    · have hn1 : ¬ n = 1 := by omega
      simp [h1, hx, hy, hn1, min_self]
    · exact absurd hx h1

/-- Every field of a wave state has the common broadcast length `n`, except
that the unchecked roughness may also be a (possibly NaN) size-1 array. -/
def WFState (s : WaveState) (n : Nat) : Prop :=
  s.Hs.length = n ∧ s.Tp.length = n ∧ s.beta.length = n ∧ s.Lp.length = n ∧
    s.zeta.length = n ∧ (s.r.length = n ∨ s.r.length = 1)

/-- C6 counterexample: a *sequence* input of length 1 yields a scalar output,
not a length-1 sequence — `_return_one_or_array` collapses every size-1
result. -/
theorem c6_length_one_sequence_collapses :
    (mkRunup (Arg.array [1]) Arg.none (Arg.array [0.05]) (Arg.array [100])
        Option.none Arg.none).map (fun s => (Stockdon2006.R2 s).isSeq) = .ok false := by
  have hok : mkRunup (Arg.array [1]) Arg.none (Arg.array [0.05]) (Arg.array [100])
      Option.none Arg.none =
      .ok ⟨[some 1], [some (Real.sqrt (2 * Real.pi * 100 / 9.81))], [some 0.05],
        [some 100], Option.none, [Option.none], [some (zf 0.05 1 100)]⟩ := rfl
  rw [hok]
  have hlen : (stockdonR2list ⟨[some 1], [some (Real.sqrt (2 * Real.pi * 100 / 9.81))],
      [some 0.05], [some 100], Option.none, [Option.none],
      [some (zf 0.05 1 100)]⟩).length = 1 := by
    rw [stockdonR2list_eq, maskScatter_length, fl3_length]
    simp
  simp [Stockdon2006.R2, return_one_or_array, hlen, PyOut.isSeq, Except.map]

/-- C6 amended: for every model and every parameter accessor it supports, on
a state whose arrays share the broadcast length `n` (roughness possibly
size-1), the raw result has length `n`; a scalar input (which is lifted to
`n = 1`) and likewise any length-1 sequence input collapse to a scalar
output, while a sequence of length `n ≥ 2` yields a sequence output of
length `n`. -/
theorem c6_output_shape (gp : F → F → F → F) (m : ModelKind) (p : Param)
    (s : WaveState) (n : Nat) (hsup : supports m p = true) (hwf : WFState s n) :
    (paramList gp m p s).length = n ∧
    (n = 1 → ∃ x, evalParam gp m p s = .scalar x) ∧
    (2 ≤ n → ∃ xs, evalParam gp m p s = .array xs ∧ xs.length = n) := by
  obtain ⟨h1, h2, h3, h4, h5, h6⟩ := hwf
  have hb : (bcast2 (fun rv hs => rv / hs) s.r s.Hs).length = n :=
    bcast2_length _ _ _ _ h1 h6
  have hlen : (paramList gp m p s).length = n := by
    cases m <;> cases p <;>
      first
      | exact absurd hsup (by decide)
      | simp [paramList, stockdonR2list_eq, nielsenR2list_eq, powerR2list_eq,
          beuzenR2list, stockdonSetupList, sincList, sigList, swashList,
          holmanR2list, holmanSetupList, ruggieroR2list, vousdoukasR2list,
          atkinsonR2list, senechalR2list, senechalSigList, passarellaSigList,
          passarellaSwashList, maskScatter_length, fl1_length, fl2_length,
          fl3_length, fl4_length, zip3With_length, min_self, hb, h1, h2, h3, h4, h5]
  refine ⟨hlen, fun hn1 => ?_, fun hn2 => ?_⟩
  · exact ⟨(paramList gp m p s).headD Option.none, by
      simp [evalParam, return_one_or_array, hlen, hn1]⟩
  · refine ⟨paramList gp m p s, ?_, hlen⟩
    unfold evalParam return_one_or_array
    rw [if_neg (by omega)]

theorem c6_output_shape_witness :
    WFState demo2S 2 ∧
    (paramList (fun _ _ _ => Option.none) ModelKind.stockdon2006 Param.R2 demo2S).length
      = 2 ∧
    ∃ xs, evalParam (fun _ _ _ => Option.none) ModelKind.stockdon2006 Param.R2 demo2S =
      .array xs ∧ xs.length = 2 := by
  have hwf : WFState demo2S 2 := by
    refine ⟨rfl, rfl, rfl, rfl, rfl, Or.inr rfl⟩
  obtain ⟨hl, -, h2⟩ := c6_output_shape (fun _ _ _ => Option.none) ModelKind.stockdon2006
    Param.R2 demo2S 2 rfl hwf
  exact ⟨hwf, hl, h2 (by norm_num)⟩

/-! ## Ensemble claims -/

theorem exceptMapM_ok {α β : Type} (f : α → Except PyErr β) (g : α → β) :
    ∀ l : List α, (∀ a, a ∈ l → f a = .ok (g a)) → exceptMapM f l = .ok (l.map g)
  | [], _ => rfl
  | a :: as, h => by
    have ha := h a (List.mem_cons_self a as)
    have ih := exceptMapM_ok f g as (fun x hx => h x (List.mem_cons_of_mem a hx))
    simp [exceptMapM, ha, ih, Except.map]

/-- On a valid parameter, when the shared `(Hs, Tp, beta, r)` construction
succeeds, `estimate` returns exactly one `{ModelName}_{param}` column per
model supporting the parameter, all evaluated on the same state. -/
theorem estimate_columns (gp : F → F → F → F) (e : EnsembleRaw) (p : Param)
    (s : WaveState)
    (hok : mkRunup e.Hs e.Tp e.beta Arg.none Option.none e.r = .ok s) :
    EnsembleRaw.estimate gp e p.str =
      .ok ((subclassList.filter (fun m => supports m p)).map
        (fun m => (modelName m ++ "_" ++ p.str, evalParam gp m p s))) := by
  have hparse : paramOfString p.str = some p := by cases p <;> rfl
  unfold EnsembleRaw.estimate EnsembleRaw.model_estimates
  rw [hparse]
  exact exceptMapM_ok _ _ _ (fun m _ => by rw [hok]; rfl)

/-- C7 counterexample: `estimate` does not forward the ensemble's stored `Lp`
to the models — each model is instantiated with `Lp=None` — so an ensemble
constructed with only a wave length fails with `MissingWaveLengthError` even
though the same `Lp` given directly to a model constructor succeeds. -/
theorem c7_lp_not_forwarded :
    EnsembleRaw.estimate (fun _ _ _ => Option.none)
      ⟨Arg.scalar 4, Arg.none, Arg.scalar 0.1, Arg.scalar 200, Arg.none⟩ "R2" =
      .error .missingWaveLength ∧
    isOkE (mkRunup (Arg.scalar 4) Arg.none (Arg.scalar 0.1) (Arg.scalar 200)
      Option.none Arg.none) = true := by
  refine ⟨rfl, ?_⟩
  rw [mkRunup_scalarLp_noh 4 Arg.none 0.1 200 Arg.none (by norm_num)]
  rfl

/-- C7 amended: `estimate(param)` instantiates every supporting model with
the same `(Hs, Tp, beta, r)` values the ensemble stores, but its `Lp` (and
any depth) are not forwarded — the models are constructed with `Lp=None`,
`h=None` — and the result has one `{ModelName}_{param}` column per
supporting model. -/
theorem c7_models_instantiated_with_ensemble_args (gp : F → F → F → F)
    (e : EnsembleRaw) (p : Param) (s : WaveState)
    (hok : mkRunup e.Hs e.Tp e.beta Arg.none Option.none e.r = .ok s) :
    EnsembleRaw.estimate gp e p.str =
      .ok ((subclassList.filter (fun m => supports m p)).map
        (fun m => (modelName m ++ "_" ++ p.str, evalParam gp m p s))) :=
  estimate_columns gp e p s hok

theorem c7_models_instantiated_with_ensemble_args_witness :
    mkRunup (Arg.scalar 4) (Arg.scalar 11) (Arg.scalar 0.1) Arg.none Option.none
      Arg.none = .ok demoS ∧
    EnsembleRaw.estimate (fun _ _ _ => Option.none)
      ⟨Arg.scalar 4, Arg.scalar 11, Arg.scalar 0.1, Arg.none, Arg.none⟩ Param.R2.str =
      .ok ((subclassList.filter (fun m => supports m Param.R2)).map
        (fun m => (modelName m ++ "_" ++ Param.R2.str,
          evalParam (fun _ _ _ => Option.none) m Param.R2 demoS))) :=
  ⟨demoS_ok,
    c7_models_instantiated_with_ensemble_args (fun _ _ _ => Option.none)
      ⟨Arg.scalar 4, Arg.scalar 11, Arg.scalar 0.1, Arg.none, Arg.none⟩ Param.R2 demoS
      demoS_ok⟩

/-- The `valid_params` list of `_model_estimates`. -/
def validParams : List String := ["R2", "setup", "sig", "sinc", "swash"]

/-- The spec's example ensemble `EnsembleRaw(Hs=4, Tp=11, beta=0.1)`. -/
def demoEnsemble : EnsembleRaw :=
  ⟨Arg.scalar 4, Arg.scalar 11, Arg.scalar 0.1, Arg.none, Arg.none⟩

theorem estimate_demo_ok (gp : F → F → F → F) (p : Param) :
    EnsembleRaw.estimate gp demoEnsemble p.str =
      .ok ((subclassList.filter (fun m => supports m p)).map
        (fun m => (modelName m ++ "_" ++ p.str, evalParam gp m p demoS))) :=
  estimate_columns gp demoEnsemble p demoS demoS_ok

theorem paramOfString_none_of_invalid (param : String) (h : param ∉ validParams) :
    paramOfString param = Option.none := by
  simp [validParams] at h
  obtain ⟨h1, h2, h3, h4, h5⟩ := h
  simp [paramOfString, h1, h2, h3, h4, h5]

/-- C8: `estimate(param)` fails with `InvalidParameterError` exactly on the
strings outside `{R2, setup, sig, sinc, swash}`; on the spec's example
ensemble `(Hs=4, Tp=11, beta=0.1)` every valid parameter succeeds, and the
`R2` table has exactly one column per R2-implementing model — the eight
named by the spec plus `Beuzen2019`. -/
theorem c8_estimate_param_validation (gp : F → F → F → F) :
    (∀ (e : EnsembleRaw) (param : String), param ∉ validParams →
      EnsembleRaw.estimate gp e param = .error .invalidParameter) ∧
    (∀ param, param ∈ validParams →
      isOkE (EnsembleRaw.estimate gp demoEnsemble param) = true) ∧
    (EnsembleRaw.estimate gp demoEnsemble "R2").map
      (fun cols => cols.map Prod.fst) =
      .ok ["Stockdon2006_R2", "Power2018_R2", "Holman1986_R2", "Nielsen2009_R2",
        "Ruggiero2001_R2", "Vousdoukas2012_R2", "Atkinson2017_R2", "Senechal2011_R2",
        "Beuzen2019_R2"] := by
  refine ⟨?_, ?_, ?_⟩
  · intro e param hmem
    unfold EnsembleRaw.estimate EnsembleRaw.model_estimates
    rw [paramOfString_none_of_invalid param hmem]
  · intro param hmem
    simp only [validParams, List.mem_cons, List.not_mem_nil, or_false] at hmem
    rcases hmem with rfl | rfl | rfl | rfl | rfl
    · show isOkE (EnsembleRaw.estimate gp demoEnsemble Param.R2.str) = true
      rw [estimate_demo_ok gp Param.R2]
      rfl
    · show isOkE (EnsembleRaw.estimate gp demoEnsemble Param.setup.str) = true
      rw [estimate_demo_ok gp Param.setup]
      rfl
    · show isOkE (EnsembleRaw.estimate gp demoEnsemble Param.sig.str) = true
      rw [estimate_demo_ok gp Param.sig]
      rfl
    · show isOkE (EnsembleRaw.estimate gp demoEnsemble Param.sinc.str) = true
      rw [estimate_demo_ok gp Param.sinc]
      rfl
    · show isOkE (EnsembleRaw.estimate gp demoEnsemble Param.swash.str) = true
      rw [estimate_demo_ok gp Param.swash]
      rfl
  · show (EnsembleRaw.estimate gp demoEnsemble Param.R2.str).map
        (fun cols => cols.map Prod.fst) =
      .ok ["Stockdon2006_R2", "Power2018_R2", "Holman1986_R2", "Nielsen2009_R2",
        "Ruggiero2001_R2", "Vousdoukas2012_R2", "Atkinson2017_R2", "Senechal2011_R2",
        "Beuzen2019_R2"]
    rw [estimate_demo_ok gp Param.R2]
    rfl

theorem c8_estimate_param_validation_witness :
    EnsembleRaw.estimate (fun _ _ _ => Option.none)
      ⟨Arg.scalar 1, Arg.scalar 8, Arg.scalar 0.1, Arg.none, Arg.none⟩ "not_r2" =
      .error .invalidParameter ∧
    isOkE (EnsembleRaw.estimate (fun _ _ _ => Option.none) demoEnsemble "R2") = true :=
  ⟨(c8_estimate_param_validation (fun _ _ _ => Option.none)).1 _ "not_r2" (by decide),
   (c8_estimate_param_validation (fun _ _ _ => Option.none)).2.1 "R2" (by decide)⟩
